import Mathlib

/-!
Verification of the Smart Ticket Resolution Estimator core
(`TicketProcessor` in `Project3/Solution/backend/rag_chain`, and
`VectorStoreManager.add_single_document` in the vector-store module).

The Python methods are embedded as pure Lean functions.  External
collaborators (Azure AI Search, Weaviate vector stores, the Redis cache
and the LLM) are modelled as fields of an `Env` record: each search
adapter is a function returning `Except String (List Match)`, where
`Except.error` models the adapter call raising an exception and
`Except.ok` models the returned match list.  Side effects performed by
`process_ticket_request` (cache writes, ID allocation, adapter and LLM
invocations) are recorded in an explicit `Trace` so that claims about
which collaborators are invoked can be stated and proved.
-/

/-- A Python scalar value as it occurs in ticket metadata: a string, a
number (Python ints and floats are modelled as rationals), or `None`. -/
inductive PyVal where
  | str (s : String)
  | num (q : ℚ)
  | vnone
deriving DecidableEq, Repr

/-- Decimal digit test, as used by Python numeral parsing. -/
def isDigitCh (c : Char) : Bool := 48 ≤ c.toNat && c.toNat ≤ 57

/-- Value of a list of decimal digits (most significant first). -/
def digitsToNat (cs : List Char) : Nat :=
  cs.foldl (fun a c => a * 10 + (c.toNat - 48)) 0

/-- Parse an unsigned decimal numeral, optionally with a fractional
part, as Python `float` does on strings such as `"18"` or `"2.5"`
(the exponent/`inf`/`nan` forms of the Python float grammar are not
needed by this code base and are out of scope: such strings are treated
as unparseable, which only widens the set of inputs the estimator has
to tolerate). -/
def parseUnsignedFloat? (cs : List Char) : Option ℚ :=
  let ip := cs.takeWhile isDigitCh
  match cs.dropWhile isDigitCh with
  | [] => if ip.isEmpty then Option.none else some ((digitsToNat ip : ℚ))
  | c :: fp =>
    if c = '.' && fp.all isDigitCh && (!ip.isEmpty || !fp.isEmpty) then
      some ((digitsToNat ip : ℚ) + (digitsToNat fp : ℚ) / ((10 : ℚ) ^ fp.length))
    else Option.none

/-- Whitespace test used by Python `str.strip` (the ASCII fragment,
which is all this code base produces). -/
def isSpaceCh (c : Char) : Bool := c = ' ' || c = '\t' || c = '\n' || c = '\r'

/-- Python `str.strip()`: remove leading and trailing whitespace. -/
def pyStrip (s : String) : String :=
  String.mk (((s.data.dropWhile isSpaceCh).reverse.dropWhile isSpaceCh).reverse)

/-- Python `float(s)` on a string: surrounding whitespace is ignored,
then an optionally signed decimal numeral is parsed; `Option.none`
models `ValueError`. -/
def pyParseFloat? (s : String) : Option ℚ :=
  match (pyStrip s).data with
  | [] => Option.none
  | c :: cs =>
    if c = '-' then (parseUnsignedFloat? cs).map (fun q => -q)
    else if c = '+' then parseUnsignedFloat? cs
    else parseUnsignedFloat? (c :: cs)

/-- Python `float(x)` on a metadata value: numbers pass through,
strings are parsed, `None` raises `TypeError` (modelled as
`Option.none`). -/
def pyFloat? : PyVal → Option ℚ
  | .str s => pyParseFloat? s
  | .num q => some q
  | .vnone => Option.none

/-- Python `int(q)` on a float: truncation toward zero, which is
exactly `Int.tdiv` of the numerator by the denominator. -/
def intTrunc (q : ℚ) : Int := q.num.tdiv (q.den : Int)

/-- Python `int(s)` on a string: an optionally signed run of decimal
digits; anything else raises `ValueError` (`Option.none`). -/
def pyParseInt? (s : String) : Option Int :=
  match (pyStrip s).data with
  | [] => Option.none
  | c :: cs =>
    if c = '-' then
      (if !cs.isEmpty && cs.all isDigitCh then some (-(digitsToNat cs : Int)) else Option.none)
    else if c = '+' then
      (if !cs.isEmpty && cs.all isDigitCh then some ((digitsToNat cs : Int)) else Option.none)
    else if (c :: cs).all isDigitCh && !(c :: cs).isEmpty then
      some ((digitsToNat (c :: cs) : Int))
    else Option.none

/-- Python `int(x)` on a metadata value. -/
def pyInt? : PyVal → Option Int
  | .str s => pyParseInt? s
  | .num q => some (intTrunc q)
  | .vnone => Option.none

/-- Python truthiness of a metadata value (`if x:`). -/
def pyTruthy : PyVal → Bool
  | .str s => !(s = "")
  | .num q => !(q = 0)
  | .vnone => false

/-- Metadata attached to a matched document, mirroring the fields the
code reads: `TicketID`, `locationID` and the two resolution-time
fields.  A field holds `Option.none` when the key is absent, in which
case `metadata.get(key, default)` yields the default. -/
structure Meta where
  TicketID : Option PyVal
  locationID : Option PyVal
  estimated_resolution_time : Option PyVal
  actual_resolution_time : Option PyVal
deriving DecidableEq, Repr

/-- A document as produced by every search path in `rag_chain`:
`page_content` is the matched description, `metadata` the selected
fields. -/
structure Doc where
  page_content : String
  metadata : Meta
deriving DecidableEq, Repr

/-- A match is a `(document, relevance score)` pair. -/
abbrev Match := Doc × ℚ

/-- The resolution-time metadata value selected by
`_calculate_estimated_time`: `metadata.get("estimated_resolution_time",
"24")` for active tickets, `metadata.get("actual_resolution_time",
"24")` otherwise. -/
def timeField (ticket_type : String) (d : Doc) : PyVal :=
  if ticket_type = "active" then d.metadata.estimated_resolution_time.getD (PyVal.str "24")
  else d.metadata.actual_resolution_time.getD (PyVal.str "24")

/-- Mean of a list of rationals, as `np.mean` computes it. -/
def ratMean (l : List ℚ) : ℚ := l.sum / (l.length : ℚ)

/-- `TicketProcessor._calculate_estimated_time`, line for line from the
source: empty match list returns the default 24; otherwise one value
per match is collected into `times` (the try body appends
`float(time_str)`, and the `except (ValueError, TypeError)` handler
appends the float `24.0`, so unparseable values are replaced by 24, not
skipped); the result is `int(np.mean(times))` when `times` is nonempty
and 24 otherwise.  (`time_str.strip()` for string values is subsumed by
`pyParseFloat?` trimming its input, exactly as Python `float` also
accepts surrounding whitespace.) -/
def _calculate_estimated_time (matchList : List Match) (ticket_type : String) : Int :=
  if matchList.isEmpty then 24
  else
    let times := matchList.map (fun m => (pyFloat? (timeField ticket_type m.1)).getD 24)
    if times.isEmpty then 24
    else intTrunc (ratMean times)

/-- A location identifier: the orchestrator accepts both strings and
integers (`isinstance(locationID, int)` is tested on the failure
paths). -/
inductive LocVal where
  | s (v : String)
  | i (n : Int)
deriving DecidableEq, Repr

/-- Python `str(locationID)`, the string form used in cache keys and
location filters. -/
def locStr : LocVal → String
  | .s v => v
  | .i n => toString n

/-- A ticket record as built by the orchestrator.  Successful tickets
(from `_create_ticket`) do not carry an `is_valid` key, so that field
is `Option.none` for them; the failure-path tickets carry
`is_valid = false`. -/
structure Ticket where
  TicketID : Int
  customerID : Int
  locationID : LocVal
  type : String
  description : String
  clusterID : Int
  estimated_resolution_time : Int
  is_valid : Option Bool
deriving DecidableEq, Repr

/-- The five search strategies of the cascade, in their fixed priority
order (the cache lookup precedes them and is tracked separately by
`Trace.cacheGets`). -/
inductive Strategy where
  | vectorActive
  | vectorHistoric
  | hybridSearch
  | textOnly
  | globalSearch
deriving DecidableEq, Repr

/-- Observable effects of one `process_ticket_request` call:
which search strategies were invoked (in order), how many LLM
invocations (`llm.invoke`, counting attempts even when the provider
fails and a templated fallback is used), how many `_get_next_ids`
allocations, how many cache reads, and the cache writes performed
(key, cached ticket type, cached ticket). -/
structure Trace where
  strategies : List Strategy
  llmCalls : Nat
  idAllocs : Nat
  cacheGets : Nat
  cacheWrites : List (String × String × Ticket)
deriving DecidableEq, Repr

/-- The collaborators of `TicketProcessor`, resolved as in the source
constructor.  Each search adapter returns `Except.error` when the
underlying call raises (the strategy methods `_search_vector_store`,
`_search_azure_hybrid` and `_search_azure_text_only` convert any
adapter exception into a raised `RuntimeError`) and `Except.ok` with
the match list otherwise.  `nextIds` is the pair `_get_next_ids`
returns for this request.  `notifyLLM`/`summaryLLM` return
`Option.none` when the text-generation provider fails, in which case
the deterministic fallbacks are used. -/
structure Env where
  cache : String → Option (String × Ticket)
  nextIds : Int × Int
  hasActiveVectors : Bool
  hasHistoricVectors : Bool
  hasVectorField : Bool
  activeSearch : String → LocVal → Except String (List Match)
  historicSearch : String → LocVal → Except String (List Match)
  hybridSearch : String → LocVal → Except String (List Match)
  textSearch : String → LocVal → Except String (List Match)
  globalSearch : String → Except String (List Match)
  notifyLLM : Ticket → String → Option String
  summaryLLM : String → Option String

/-- `TicketProcessor._validate_query`: empty or whitespace-only input
is rejected, then stripped input shorter than 20 characters is
rejected; `Except.error` carries the `ValueError` message. -/
def _validate_query (query : String) : Except String Unit :=
  if query = "" || pyStrip query = "" then Except.error "Query cannot be empty"
  else if (pyStrip query).length < 20 then
    Except.error "Query too short - please provide more details"
  else Except.ok ()

/-- `TicketProcessor._summarize_text` with the default
`max_length=1500`: text within the limit is returned unchanged; longer
text is summarized by the LLM, falling back to truncation to 500
characters plus an ellipsis when the provider fails. -/
def _summarize_text (env : Env) (text : String) : String :=
  if text.length ≤ 1500 then text
  else
    match env.summaryLLM text with
    | some s => pyStrip s
    | Option.none => String.mk (text.data.take 500) ++ "..."

/-- Number of LLM invocations performed by `_summarize_text`. -/
def summarizeLLMCalls (text : String) : Nat := if text.length ≤ 1500 then 0 else 1

/-- `TicketProcessor._create_ticket`: the standardized successful
ticket, with fixed `type="complaint"` and `clusterID=5`, the
description summarized if over the length threshold. -/
def _create_ticket (env : Env) (TicketID customer_id : Int) (locationID : LocVal)
    (description : String) (estimated_time : Int) : Ticket :=
  { TicketID := TicketID
    customerID := customer_id
    locationID := locationID
    type := "complaint"
    description := _summarize_text env description
    clusterID := 5
    estimated_resolution_time := estimated_time
    is_valid := Option.none }

/-- `TicketProcessor._generate_notification`: one LLM invocation with
the ticket facts and the matching method; on provider failure the
deterministic templated sentence embedding the estimated time is
returned, so this function never fails the request. -/
def _generate_notification (env : Env) (t : Ticket) (matching_method : String) : String :=
  match env.notifyLLM t matching_method with
  | some s => pyStrip s
  | Option.none =>
    "We\u0027ve received your ticket and are working to resolve it within " ++
      toString t.estimated_resolution_time ++
      " hours. Our team has analyzed similar issues to provide this estimate."

/-- The cache key of a request.  The source computes
`hashlib.sha256(f"d:l".encode()).hexdigest()` over the joined string;
the injective sha256-hexdigest step is modelled as the identity on the
joined string, which preserves exactly the equalities of keys the
orchestrator can observe. -/
def query_hash (description : String) (locationID : LocVal) : String :=
  description ++ ":" ++ locStr locationID

/-- The ticket built by the outermost `except Exception` handler of
`process_ticket_request` (an escaped `RuntimeError` from a strategy):
IDs 0, `locationID` kept only when it is an `int`, `type="error"`. -/
def errorTicket (locationID : LocVal) (msg : String) : Ticket :=
  { TicketID := 0
    customerID := 0
    locationID := match locationID with | .i n => .i n | .s _ => .i 0
    type := "error"
    description := "System error occurred: " ++ msg
    clusterID := 0
    estimated_resolution_time := 0
    is_valid := some false }

/-- The ticket built by the `except ValueError` handler of
`process_ticket_request` (input validation failure). -/
def validationErrorTicket (locationID : LocVal) (msg : String) : Ticket :=
  { TicketID := 0
    customerID := 0
    locationID := match locationID with | .i n => .i n | .s _ => .i 0
    type := "validation_error"
    description := msg
    clusterID := 0
    estimated_resolution_time := 0
    is_valid := some false }

/-- The ticket built when every strategy runs out of matches
(`invalid_query` exhaustion path). -/
def invalidTicket (TicketID customer_id : Int) (locationID : LocVal) : Ticket :=
  { TicketID := TicketID
    customerID := customer_id
    locationID := locationID
    type := "invalid_query"
    description := "Please provide more specific details about your technical issue."
    clusterID := 0
    estimated_resolution_time := 0
    is_valid := some false }

/-- The result of one `process_ticket_request` call: the returned
`(ticket_type, ticket_data, notification)` triple plus the observable
effect trace. -/
structure PResult where
  ticket_type : String
  ticket_data : Ticket
  notification : String
  trace : Trace
deriving DecidableEq, Repr

/-- The shared finalize step of every match-producing strategy:
estimate from the matches, build the ticket, generate the notification
(one LLM call, plus one for summarization of oversized descriptions),
cache `(ticket_type, ticket_data)` under the query hash, and return. -/
def finalizeStep (env : Env) (key : String) (TicketID customer_id : Int)
    (locationID : LocVal) (description : String) (matchList : List Match)
    (flag notifMethod ttype : String) (done : List Strategy) : PResult :=
  let estimated_time := _calculate_estimated_time matchList flag
  let ticket_data := _create_ticket env TicketID customer_id locationID description estimated_time
  let notification := _generate_notification env ticket_data notifMethod
  { ticket_type := ttype
    ticket_data := ticket_data
    notification := notification
    trace :=
      { strategies := done
        llmCalls := summarizeLLMCalls description + 1
        idAllocs := 1
        cacheGets := 1
        cacheWrites := [(key, ttype, ticket_data)] } }

/-- The outermost `except Exception` handler outcome: a `RuntimeError`
raised by a strategy escapes every strategy-local handler (there are
none before the global stage) and is converted into an `error` ticket
with the fixed apology notification; nothing is cached. -/
def systemErrorResult (locationID : LocVal) (msg : String) (done : List Strategy) : PResult :=
  { ticket_type := "error"
    ticket_data := errorTicket locationID msg
    notification :=
      "We\u0027re experiencing technical difficulties. Please try again later or contact support directly."
    trace :=
      { strategies := done
        llmCalls := 0
        idAllocs := 1
        cacheGets := 1
        cacheWrites := [] } }

/-- The exhaustion path (`invalid_query`): reached when every strategy
returned an empty match list (or the global search raised, which is the
single strategy whose exceptions are caught locally); the sentinel
ticket is cached. -/
def invalidQueryResult (key : String) (TicketID customer_id : Int) (locationID : LocVal)
    (done : List Strategy) : PResult :=
  let t := invalidTicket TicketID customer_id locationID
  { ticket_type := "invalid_query"
    ticket_data := t
    notification :=
      "We\u0027ve received your ticket, but couldn\u0027t find similar issues to estimate resolution time. Please provide more specific details about your technical problem so we can better assist you."
    trace :=
      { strategies := done
        llmCalls := 0
        idAllocs := 1
        cacheGets := 1
        cacheWrites := [(key, "invalid_query", t)] } }

/-- Stage 6, `GLOBAL_SEARCH`: `search_client.search(description,
select=[...], top=10)` with no `locationID` filter.  This is the only
strategy wrapped in its own `try`: an exception here is logged and
falls through to the exhaustion path. -/
def globalStep (env : Env) (key : String) (TicketID customer_id : Int) (locationID : LocVal)
    (description : String) (done : List Strategy) : PResult :=
  let done := done ++ [Strategy.globalSearch]
  match env.globalSearch description with
  | .error _ => invalidQueryResult key TicketID customer_id locationID done
  | .ok ms =>
    if ms.isEmpty then invalidQueryResult key TicketID customer_id locationID done
    else
      finalizeStep env key TicketID customer_id locationID description ms
        "active" "Global Search (No Location Filter)" "new_global_search_ticket" done

/-- Stage 5, `TEXT_ONLY_SEARCH` via `_search_azure_text_only`
(full-text query filtered by `locationID`); a raised `RuntimeError`
escapes to the outermost handler. -/
def textStep (env : Env) (key : String) (TicketID customer_id : Int) (locationID : LocVal)
    (description : String) (done : List Strategy) : PResult :=
  let done := done ++ [Strategy.textOnly]
  match env.textSearch description locationID with
  | .error e => systemErrorResult locationID e done
  | .ok ms =>
    if ms.isEmpty then globalStep env key TicketID customer_id locationID description done
    else
      finalizeStep env key TicketID customer_id locationID description ms
        "active" "Text Search" "new_text_search_ticket" done

/-- Stage 4, `HYBRID_SEARCH` via `_search_azure_hybrid` (text plus
vector query when available, filtered by `locationID`; a failing
vector-query construction falls back to text-only inside the adapter);
a raised `RuntimeError` escapes to the outermost handler. -/
def hybridStep (env : Env) (key : String) (TicketID customer_id : Int) (locationID : LocVal)
    (description : String) (done : List Strategy) : PResult :=
  let done := done ++ [Strategy.hybridSearch]
  match env.hybridSearch description locationID with
  | .error e => systemErrorResult locationID e done
  | .ok ms =>
    if ms.isEmpty then textStep env key TicketID customer_id locationID description done
    else
      finalizeStep env key TicketID customer_id locationID description ms
        "active"
        (if env.hasVectorField then "Hybrid Search (Text + Vector)" else "Text Search")
        "new_azure_search_ticket" done

/-- Stage 3, `VECTOR_HISTORIC`: entered only when a historic vector
store is configured; uses the `historic` flag so the estimate reads
`actual_resolution_time`. -/
def historicStep (env : Env) (key : String) (TicketID customer_id : Int) (locationID : LocVal)
    (description : String) (done : List Strategy) : PResult :=
  if env.hasHistoricVectors then
    let done := done ++ [Strategy.vectorHistoric]
    match env.historicSearch description locationID with
    | .error e => systemErrorResult locationID e done
    | .ok ms =>
      if ms.isEmpty then hybridStep env key TicketID customer_id locationID description done
      else
        finalizeStep env key TicketID customer_id locationID description ms
          "historic" "Vector Search - Historic Tickets" "new_historic_ticket" done
  else hybridStep env key TicketID customer_id locationID description done

/-- Stage 2, `VECTOR_ACTIVE`: entered only when an active vector store
is configured. -/
def activeStep (env : Env) (key : String) (TicketID customer_id : Int) (locationID : LocVal)
    (description : String) : PResult :=
  if env.hasActiveVectors then
    match env.activeSearch description locationID with
    | .error e => systemErrorResult locationID e [Strategy.vectorActive]
    | .ok ms =>
      if ms.isEmpty then
        historicStep env key TicketID customer_id locationID description [Strategy.vectorActive]
      else
        finalizeStep env key TicketID customer_id locationID description ms
          "active" "Vector Search - Active Tickets" "new_active_ticket" [Strategy.vectorActive]
  else historicStep env key TicketID customer_id locationID description []

/-- `TicketProcessor.process_ticket_request`, transcribed from the
source: validate (a `ValueError` is answered by the `except ValueError`
handler with a `validation_error` ticket and no collaborator touched);
compute the cache key and look it up (a hit returns the cached type and
ticket with a freshly generated `"Cached Result"` notification —
exactly one LLM call — and writes nothing); on a miss allocate the next
IDs once and run the strategy cascade in its fixed order. -/
def process_ticket_request (env : Env) (description : String) (locationID : LocVal) : PResult :=
  match _validate_query description with
  | .error ve =>
    { ticket_type := "validation_error"
      ticket_data := validationErrorTicket locationID ve
      notification := "Input validation failed: " ++ ve
      trace := { strategies := [], llmCalls := 0, idAllocs := 0, cacheGets := 0, cacheWrites := [] } }
  | .ok _ =>
    let key := query_hash description locationID
    match env.cache key with
    | some (tt, td) =>
      { ticket_type := tt
        ticket_data := td
        notification := _generate_notification env td "Cached Result"
        trace := { strategies := [], llmCalls := 1, idAllocs := 0, cacheGets := 1, cacheWrites := [] } }
    | Option.none =>
      activeStep env key env.nextIds.1 env.nextIds.2 locationID description

/-- Association-list lookup over the cache writes of a call (first
write wins, matching `setex` ordering with at most one write per
call). -/
def lookupWrite : List (String × String × Ticket) → String → Option (String × Ticket)
  | [], _ => Option.none
  | (k, v) :: rest, key => if k = key then some v else lookupWrite rest key

/-- Apply the cache writes of a finished call to the environment, as
Redis would within the TTL window. -/
def applyWrites (env : Env) (ws : List (String × String × Ticket)) : Env :=
  { env with
    cache := fun k =>
      match lookupWrite ws k with
      | some v => some v
      | Option.none => env.cache k }

/-- Two consecutive orchestrator calls on the same inputs, the second
seeing the cache writes of the first. -/
def twoCalls (env : Env) (description : String) (locationID : LocVal) : PResult × PResult :=
  let r1 := process_ticket_request env description locationID
  let r2 := process_ticket_request (applyWrites env r1.trace.cacheWrites) description locationID
  (r1, r2)

/-- A raw document of the Azure AI Search index as `_get_next_ids`
scans it: the six identifier field aliases the code probes with
`t.get(...)`; a field is `Option.none` when the key is absent. -/
structure IndexDoc where
  TicketID : Option PyVal
  id : Option PyVal
  ticket_id : Option PyVal
  customerID : Option PyVal
  customer_id : Option PyVal
  customer : Option PyVal
deriving DecidableEq, Repr

/-- Python `a or b or c` over optional dictionary lookups: the first
truthy value, if any (`x.get(k)` of an absent key is `None`, which is
falsy). -/
def firstTruthy : List (Option PyVal) → Option PyVal
  | [] => Option.none
  | v :: rest =>
    match v with
    | some pv => if pyTruthy pv then some pv else firstTruthy rest
    | Option.none => firstTruthy rest

/-- The numeric ticket identifier `_get_next_ids` extracts from one
scanned document: `t.get("TicketID") or t.get("id") or
t.get("ticket_id")`, kept only when truthy and parseable by `int`. -/
def ticketIdOf (t : IndexDoc) : Option Int :=
  match firstTruthy [t.TicketID, t.id, t.ticket_id] with
  | some v => pyInt? v
  | Option.none => Option.none

/-- The numeric customer identifier extracted from one scanned
document: `t.get("customerID") or t.get("customer_id") or
t.get("customer")`, kept only when truthy and parseable by `int`. -/
def customerIdOf (t : IndexDoc) : Option Int :=
  match firstTruthy [t.customerID, t.customer_id, t.customer] with
  | some v => pyInt? v
  | Option.none => Option.none

/-- Python `max(l) if l else 0`. -/
def listMax0 : List Int → Int
  | [] => 0
  | x :: xs => xs.foldl max x

/-- `TicketProcessor._get_next_ids`.  `scan` is the outcome of
`search_client.search("*", top=1000, include_total_count=True)`
followed by `list(...)`: `Except.error` when the index is unreadable
(any exception), `Except.ok` with the scanned documents otherwise.
`randTicket`/`randCustomer` are the values `random.randint` produces
in the fallback branch of the `except` handler.  On a successful scan
the two counters are computed independently: the maximum parseable
identifier (0 when the scan returned no documents, and 0 when no
identifier parses) plus one. -/
def _get_next_ids (scan : Except String (List IndexDoc))
    (randTicket randCustomer : Int) : Int × Int :=
  match scan with
  | .error _ => (randTicket, randCustomer)
  | .ok tickets =>
    if tickets.isEmpty then (0 + 1, 0 + 1)
    else
      let ticketIDs := tickets.filterMap ticketIdOf
      let customer_ids := tickets.filterMap customerIdOf
      (listMax0 ticketIDs + 1, listMax0 customer_ids + 1)

/-- Whether a stored document passes the location filter every
pre-global strategy applies: the Weaviate path filters with
`Filter.by_property("locationID").equal(str(locationID))` and the
Azure path with the OData `locationID eq ...` clause — both compare
the stored `locationID` property with `str(locationID)`. -/
def locMatches (d : Doc) (loc : LocVal) : Bool :=
  d.metadata.locationID = some (PyVal.str (locStr loc))

/-- The semantics of a location-filtered search over a corpus, used to
instantiate the adapters for the global-fallback claim: the backend
returns the documents it deems relevant to the query that also carry
the requested `locationID` (relevance scores are modelled as 1, which
no claim inspects). -/
def filteredQuery (corpus : List Doc) (relevant : String → Doc → Bool)
    (description : String) (loc : LocVal) : List Match :=
  (corpus.filter (fun d => relevant description d && locMatches d loc)).map (fun d => (d, 1))

/-- The semantics of the unfiltered global search over the index
corpus: all relevant documents, regardless of `locationID`. -/
def globalQuery (corpus : List Doc) (relevant : String → Doc → Bool)
    (description : String) : List Match :=
  (corpus.filter (fun d => relevant description d)).map (fun d => (d, 1))

/-- An environment whose adapters search concrete corpora (active
vector collection, historic vector collection, search index) with the
filter semantics each strategy requests in the source: every
pre-global strategy passes the `locationID` filter and only the global
stage omits it.  The cache starts empty and no adapter raises. -/
def envOfCorpus (activeC historicC indexC : List Doc) (relevant : String → Doc → Bool)
    (nextIds : Int × Int) (notify : Ticket → String → Option String) : Env :=
  { cache := fun _ => Option.none
    nextIds := nextIds
    hasActiveVectors := true
    hasHistoricVectors := true
    hasVectorField := false
    activeSearch := fun d l => .ok (filteredQuery activeC relevant d l)
    historicSearch := fun d l => .ok (filteredQuery historicC relevant d l)
    hybridSearch := fun d l => .ok (filteredQuery indexC relevant d l)
    textSearch := fun d l => .ok (filteredQuery indexC relevant d l)
    globalSearch := fun d => .ok (globalQuery indexC relevant d)
    notifyLLM := notify
    summaryLLM := fun _ => Option.none }

/-- Error taxonomy of `VectorStoreManager.add_single_document`:
validation failures raise `ValueError`, storage failures are wrapped
into `RuntimeError`. -/
inductive AddErr where
  | valueError (msg : String)
  | runtimeError (msg : String)
deriving DecidableEq, Repr

/-- The `ticket_data` dictionary passed to
`VectorStoreManager.add_single_document`, restricted to the keys the
method reads; a field is `Option.none` when the key is absent (the
stored values all go through `str(...)`, so they are modelled as
strings). -/
structure TicketData where
  description : Option String
  TicketID : Option String
  locationID : Option String
  estimated_resolution_time : Option String
deriving DecidableEq, Repr

/-- A document as stored in a Weaviate collection by
`add_single_document`: the three text properties, the resolution-time
property (`estimated_resolution_time` for a collection whose name
contains "active", `actual_resolution_time` otherwise) and the
embedding vector. -/
structure WeaviateProps where
  TicketID : String
  locationID : String
  description : String
  estimated_resolution_time : Option String
  actual_resolution_time : Option String
  vector : List ℚ
deriving DecidableEq, Repr

/-- `VectorStoreManager.add_single_document`.  The required-field loop
checks `description`, `TicketID`, `locationID` and
`estimated_resolution_time` in order and raises `ValueError` at the
first absent key; then the description must be truthy and at least 5
characters after stripping; only after all validation does the method
embed the description (`embed` returning `Option.none` models an
embedding/storage failure, re-raised as `RuntimeError`) and insert the
document, so a validation failure writes nothing. -/
def add_single_document (isActiveCollection : Bool) (embed : String → Option (List ℚ))
    (store : List WeaviateProps) (ticket_data : TicketData) :
    Except AddErr (List WeaviateProps) :=
  if ticket_data.description.isNone then
    .error (.valueError "Missing required field: description")
  else if ticket_data.TicketID.isNone then
    .error (.valueError "Missing required field: TicketID")
  else if ticket_data.locationID.isNone then
    .error (.valueError "Missing required field: locationID")
  else if ticket_data.estimated_resolution_time.isNone then
    .error (.valueError "Missing required field: estimated_resolution_time")
  else
    let description := ticket_data.description.getD ""
    if description = "" || (pyStrip description).length < 5 then
      .error (.valueError "Description must be at least 5 characters long")
    else
      match embed description with
      | Option.none => .error (.runtimeError "Failed to add ticket to vector store")
      | some vec =>
        .ok (store ++
          [{ TicketID := ticket_data.TicketID.getD ""
             locationID := ticket_data.locationID.getD ""
             description := description
             estimated_resolution_time :=
               if isActiveCollection then some (ticket_data.estimated_resolution_time.getD "")
               else Option.none
             actual_resolution_time :=
               if isActiveCollection then Option.none
               else some (ticket_data.estimated_resolution_time.getD "")
             vector := vec }])

/-- The sample description of the end-to-end scenario of the spec (49
characters, so it passes validation). -/
def sampleDesc : String := "Email server connectivity issues at branch office"

/-- The sample location of the end-to-end scenario of the spec. -/
def sampleLoc : LocVal := LocVal.s "15"

/-- A matched document whose resolution-time fields hold the given
string, used to exercise the estimator. -/
def timeDoc (v : String) : Doc :=
  { page_content := ""
    metadata :=
      { TicketID := Option.none
        locationID := Option.none
        estimated_resolution_time := some (PyVal.str v)
        actual_resolution_time := some (PyVal.str v) } }

/-- The P2 example of the spec: matches with resolution times
`[10, 20, "bad", 30]`. -/
def m4 : List Match := [(timeDoc "10", 1), (timeDoc "20", 1), (timeDoc "bad", 1), (timeDoc "30", 1)]

/-- A fully configured environment whose adapters all succeed with no
matches, whose cache is empty, and whose LLM always fails over to the
deterministic templates (so notification texts are the fixed
fallbacks). -/
def envBase : Env :=
  { cache := fun _ => Option.none
    nextIds := (7, 3)
    hasActiveVectors := true
    hasHistoricVectors := true
    hasVectorField := true
    activeSearch := fun _ _ => .ok []
    historicSearch := fun _ _ => .ok []
    hybridSearch := fun _ _ => .ok []
    textSearch := fun _ _ => .ok []
    globalSearch := fun _ => .ok []
    notifyLLM := fun _ _ => Option.none
    summaryLLM := fun _ => Option.none }

/-- The match document of the end-to-end scenario: one active ticket
with `estimated_resolution_time` "18" at location "15". -/
def sampleDoc : Doc :=
  { page_content := sampleDesc
    metadata :=
      { TicketID := some (PyVal.str "101")
        locationID := some (PyVal.str "15")
        estimated_resolution_time := some (PyVal.str "18")
        actual_resolution_time := Option.none } }

/-- The resolution-time value the amended estimator reading assigns to
one match: the parsed time field, with the default 24 substituted for
values that cannot be parsed. -/
def resolutionValue (flag : String) (m : Match) : ℚ :=
  (pyFloat? (timeField flag m.1)).getD 24

/-- Modelled from the spec: the estimator as the amended claim words
it — substitute 24 for each unparseable value, average, truncate toward
zero, and return 24 on an empty match list. -/
def estimatorAmended (matchList : List Match) (flag : String) : Int :=
  if matchList = [] then 24
  else intTrunc (ratMean (matchList.map (resolutionValue flag)))

/-- C3 counterexample: on the P2 example given by the spec itself, `[10, 20, "bad",
30]` the estimator returns 21, not the claimed 20 — the unparseable
entry is not skipped but replaced by the default 24, so the mean is
`(10+20+24+30)/4 = 21`. -/
theorem C3_estimator_example_counterexample :
    _calculate_estimated_time m4 "active" = 21 ∧ _calculate_estimated_time m4 "active" ≠ 20 := by
  have h1 : m4.map (fun m => (pyFloat? (timeField "active" m.1)).getD 24)
      = [10, 20, 24, 30] := by decide
  have hne : m4.isEmpty = false := by decide
  have h : _calculate_estimated_time m4 "active" = 21 := by
    simp only [_calculate_estimated_time, hne, Bool.false_eq_true, if_false, h1]
    have h2 : ratMean [(10 : ℚ), 20, 24, 30] = 21 := by
      norm_num [ratMean, List.sum_cons, List.sum_nil]
    rw [if_neg (by decide), h2]
    decide
  exact ⟨h, by rw [h]; decide⟩

/-- C3 amended: the estimator reads `estimated_resolution_time`
(active) or `actual_resolution_time` (historic) from each match,
substitutes the fixed default 24 for values that cannot be parsed as a
float (it does not skip them; a missing field defaults to the parseable
string "24"), returns the mean of the resulting values truncated to an
integer — hence the mean of exactly the parsed values whenever every
value parses — and returns 24 when the match list is empty (so times
`[10, 20, "bad", 30]` yield 21 and an empty list yields 24); the
estimator is a total function and never raises. -/
theorem C3_estimator_amended :
    (∀ (ms : List Match) (f : String),
        _calculate_estimated_time ms f = estimatorAmended ms f)
    ∧ (∀ (ms : List Match) (f : String) (qs : List ℚ),
        ms.map (fun m => pyFloat? (timeField f m.1)) = qs.map some → ms ≠ [] →
        _calculate_estimated_time ms f = intTrunc (ratMean qs))
    ∧ _calculate_estimated_time m4 "active" = 21
    ∧ (∀ f : String, _calculate_estimated_time [] f = 24) := by
  refine ⟨?_, ?_, ?_, ?_⟩
  · intro ms f
    cases ms <;> rfl
  · intro ms f qs h hne
    have hmap : ms.map (fun m => (pyFloat? (timeField f m.1)).getD 24) = qs := by
      clear hne
      induction ms generalizing qs with
      | nil => cases qs with | nil => rfl | cons b u => simp at h
      | cons a t ih =>
        cases qs with
        | nil => simp at h
        | cons b u =>
          simp only [List.map_cons, List.cons.injEq] at h ⊢
          exact ⟨by rw [h.1]; rfl, ih u h.2⟩
    have hq : qs ≠ [] := by
      intro hq
      apply hne
      subst hq
      simpa using List.map_eq_nil_iff.mp h
    have hms : ms.isEmpty = false := by
      cases ms with
      | nil => exact absurd rfl hne
      | cons a l => rfl
    have hqs : qs.isEmpty = false := by
      cases qs with
      | nil => exact absurd rfl hq
      | cons a l => rfl
    simp only [_calculate_estimated_time, hms, Bool.false_eq_true, if_false, hmap, hqs]
  · have h1 : m4.map (fun m => (pyFloat? (timeField "active" m.1)).getD 24)
        = [10, 20, 24, 30] := by decide
    have hne : m4.isEmpty = false := by decide
    simp only [_calculate_estimated_time, hne, Bool.false_eq_true, if_false, h1]
    have h2 : ratMean [(10 : ℚ), 20, 24, 30] = 21 := by
      norm_num [ratMean, List.sum_cons, List.sum_nil]
    rw [if_neg (by decide), h2]
    decide
  · intro f
    simp [_calculate_estimated_time]

/-- Witness for C3: the all-parseable clause applied to the end-to-end
scenario match (a single active ticket with time "18"). -/
theorem C3_estimator_witness :
    ([(sampleDoc, (1 : ℚ))].map (fun m => pyFloat? (timeField "active" m.1))
        = [(18 : ℚ)].map some
      ∧ [(sampleDoc, (1 : ℚ))] ≠ [])
    ∧ _calculate_estimated_time [(sampleDoc, (1 : ℚ))] "active" = intTrunc (ratMean [18]) :=
  ⟨⟨by decide, by decide⟩,
    C3_estimator_amended.2.1 [(sampleDoc, (1 : ℚ))] "active" [18] (by decide) (by decide)⟩

/-- C4: a description that is empty after stripping, or whose stripped
form is shorter than 20 characters, makes `_validate_query` raise; the
`except ValueError` handler returns a `validation_error` ticket
immediately, with no search strategy, no ID allocation, no cache
access, no cache write and no LLM call. -/
theorem C4_validation_short_circuit (env : Env) (description : String) (locationID : LocVal)
    (h : pyStrip description = "" ∨ (pyStrip description).length < 20) :
    (process_ticket_request env description locationID).ticket_type = "validation_error"
    ∧ (process_ticket_request env description locationID).ticket_data.type = "validation_error"
    ∧ (process_ticket_request env description locationID).trace.strategies = []
    ∧ (process_ticket_request env description locationID).trace.llmCalls = 0
    ∧ (process_ticket_request env description locationID).trace.idAllocs = 0
    ∧ (process_ticket_request env description locationID).trace.cacheGets = 0
    ∧ (process_ticket_request env description locationID).trace.cacheWrites = [] := by
  obtain ⟨ve, hve⟩ : ∃ ve, _validate_query description = .error ve := by
    unfold _validate_query
    rcases h with h | h
    · by_cases hq : description = "" <;> simp [hq, h]
    · by_cases hq : description = "" <;> by_cases hs : pyStrip description = "" <;>
        simp [hq, hs, h]
  simp [process_ticket_request, hve, validationErrorTicket]

/-- Witness for C4: the P4 input of the spec, the 5-character description
"short". -/
theorem C4_validation_witness :
    (pyStrip "short" = "" ∨ (pyStrip "short").length < 20)
    ∧ (process_ticket_request envBase "short" sampleLoc).ticket_type = "validation_error" :=
  ⟨Or.inr (by decide),
    (C4_validation_short_circuit envBase "short" sampleLoc (Or.inr (by decide))).1⟩

/-- C1: for a validated request missing the cache, with both vector
stores configured, the strategies run in the fixed order active
vectors, historic vectors, hybrid, text-only, global; when the earlier
strategies return empty match lists and the Nth returns a non-empty
one, the resulting `ticket_type` is exactly the name of strategy N
(`new_active_ticket`, `new_historic_ticket`, `new_azure_search_ticket`,
`new_text_search_ticket`, `new_global_search_ticket` respectively) and
the invoked-strategy trace stops at N, so no later strategy is
invoked. -/
theorem C1_cascade_ordering :
    (∀ (env : Env) (d : String) (l : LocVal) (ms : List Match),
        _validate_query d = .ok () →
        env.cache (query_hash d l) = Option.none →
        env.hasActiveVectors = true →
        env.activeSearch d l = .ok ms → ms ≠ [] →
        (process_ticket_request env d l).ticket_type = "new_active_ticket"
        ∧ (process_ticket_request env d l).trace.strategies = [Strategy.vectorActive])
    ∧ (∀ (env : Env) (d : String) (l : LocVal) (ms : List Match),
        _validate_query d = .ok () →
        env.cache (query_hash d l) = Option.none →
        env.hasActiveVectors = true → env.hasHistoricVectors = true →
        env.activeSearch d l = .ok [] →
        env.historicSearch d l = .ok ms → ms ≠ [] →
        (process_ticket_request env d l).ticket_type = "new_historic_ticket"
        ∧ (process_ticket_request env d l).trace.strategies
            = [Strategy.vectorActive, Strategy.vectorHistoric])
    ∧ (∀ (env : Env) (d : String) (l : LocVal) (ms : List Match),
        _validate_query d = .ok () →
        env.cache (query_hash d l) = Option.none →
        env.hasActiveVectors = true → env.hasHistoricVectors = true →
        env.activeSearch d l = .ok [] → env.historicSearch d l = .ok [] →
        env.hybridSearch d l = .ok ms → ms ≠ [] →
        (process_ticket_request env d l).ticket_type = "new_azure_search_ticket"
        ∧ (process_ticket_request env d l).trace.strategies
            = [Strategy.vectorActive, Strategy.vectorHistoric, Strategy.hybridSearch])
    ∧ (∀ (env : Env) (d : String) (l : LocVal) (ms : List Match),
        _validate_query d = .ok () →
        env.cache (query_hash d l) = Option.none →
        env.hasActiveVectors = true → env.hasHistoricVectors = true →
        env.activeSearch d l = .ok [] → env.historicSearch d l = .ok [] →
        env.hybridSearch d l = .ok [] →
        env.textSearch d l = .ok ms → ms ≠ [] →
        (process_ticket_request env d l).ticket_type = "new_text_search_ticket"
        ∧ (process_ticket_request env d l).trace.strategies
            = [Strategy.vectorActive, Strategy.vectorHistoric, Strategy.hybridSearch,
               Strategy.textOnly])
    ∧ (∀ (env : Env) (d : String) (l : LocVal) (ms : List Match),
        _validate_query d = .ok () →
        env.cache (query_hash d l) = Option.none →
        env.hasActiveVectors = true → env.hasHistoricVectors = true →
        env.activeSearch d l = .ok [] → env.historicSearch d l = .ok [] →
        env.hybridSearch d l = .ok [] → env.textSearch d l = .ok [] →
        env.globalSearch d = .ok ms → ms ≠ [] →
        (process_ticket_request env d l).ticket_type = "new_global_search_ticket"
        ∧ (process_ticket_request env d l).trace.strategies
            = [Strategy.vectorActive, Strategy.vectorHistoric, Strategy.hybridSearch,
               Strategy.textOnly, Strategy.globalSearch]) := by
  refine ⟨?_, ?_, ?_, ?_, ?_⟩
  · intro env d l ms hv hc hA hs hne
    have hms : ms.isEmpty = false := by cases ms with | nil => exact absurd rfl hne | cons a t => rfl
    constructor <;>
      simp [process_ticket_request, activeStep, finalizeStep, hv, hc, hA, hs, hms]
  · intro env d l ms hv hc hA hH hs0 hs hne
    have hms : ms.isEmpty = false := by cases ms with | nil => exact absurd rfl hne | cons a t => rfl
    constructor <;>
      simp [process_ticket_request, activeStep, historicStep, finalizeStep,
        hv, hc, hA, hH, hs0, hs, hms]
  · intro env d l ms hv hc hA hH hs0 hs1 hs hne
    have hms : ms.isEmpty = false := by cases ms with | nil => exact absurd rfl hne | cons a t => rfl
    constructor <;>
      simp [process_ticket_request, activeStep, historicStep, hybridStep, finalizeStep,
        hv, hc, hA, hH, hs0, hs1, hs, hms]
  · intro env d l ms hv hc hA hH hs0 hs1 hs2 hs hne
    have hms : ms.isEmpty = false := by cases ms with | nil => exact absurd rfl hne | cons a t => rfl
    constructor <;>
      simp [process_ticket_request, activeStep, historicStep, hybridStep, textStep, finalizeStep,
        hv, hc, hA, hH, hs0, hs1, hs2, hs, hms]
  · intro env d l ms hv hc hA hH hs0 hs1 hs2 hs3 hs hne
    have hms : ms.isEmpty = false := by cases ms with | nil => exact absurd rfl hne | cons a t => rfl
    constructor <;>
      simp [process_ticket_request, activeStep, historicStep, hybridStep, textStep, globalStep,
        finalizeStep, hv, hc, hA, hH, hs0, hs1, hs2, hs3, hs, hms]

/-- Witness for C1: in an environment where only the hybrid strategy
has matches, the result is a `new_azure_search_ticket` reached through
exactly the first three strategies. -/
theorem C1_cascade_witness :
    (_validate_query sampleDesc = Except.ok ()
      ∧ [(sampleDoc, (1 : ℚ))] ≠ ([] : List Match))
    ∧ (process_ticket_request
          { envBase with hybridSearch := fun _ _ => .ok [(sampleDoc, 1)] }
          sampleDesc sampleLoc).ticket_type = "new_azure_search_ticket" :=
  ⟨⟨rfl, by decide⟩,
    (C1_cascade_ordering.2.2.1
      { envBase with hybridSearch := fun _ _ => .ok [(sampleDoc, 1)] }
      sampleDesc sampleLoc [(sampleDoc, 1)]
      rfl rfl rfl rfl rfl rfl rfl (by decide)).1⟩

/-- An environment whose active-ticket vector store raises on every
call while the hybrid and text searches have matches. -/
def envVectorBoom : Env :=
  { envBase with
    activeSearch := fun _ _ => .error "connection refused"
    hybridSearch := fun _ _ => .ok [(sampleDoc, 1)]
    textSearch := fun _ _ => .ok [(sampleDoc, 1)] }

/-- C2 counterexample: with a vector store adapter that raises on
every call, the request does not reach the hybrid strategy even though
hybrid has matches — the `RuntimeError` raised by
`_search_vector_store` escapes to the outermost handler and the caller
receives a ticket of type `error`. -/
theorem C2_degradation_counterexample :
    (process_ticket_request envVectorBoom sampleDesc sampleLoc).ticket_type = "error"
    ∧ (process_ticket_request envVectorBoom sampleDesc sampleLoc).trace.strategies
        = [Strategy.vectorActive]
    ∧ (process_ticket_request envVectorBoom sampleDesc sampleLoc).ticket_type
        ≠ "new_azure_search_ticket" :=
  ⟨rfl, rfl, by decide⟩

/-- C2 amended: an exception raised by an adapter inside the vector,
hybrid or text-only strategies is not caught within that strategy: the
strategy methods re-raise it as `RuntimeError`, which escapes to the
outermost handler of the orchestrator, so the cascade stops at the raising
strategy and the caller receives a ticket of type `error` (in
particular a vector store that raises on every call prevents the
request from reaching the hybrid and text-only strategies).  Only the
global-search strategy catches exceptions locally, treating them as no
matches so the request falls through to the `invalid_query`
exhaustion path. -/
theorem C2_degradation_amended :
    (∀ (env : Env) (d : String) (l : LocVal) (e : String),
        _validate_query d = .ok () →
        env.cache (query_hash d l) = Option.none →
        env.hasActiveVectors = true →
        env.activeSearch d l = .error e →
        (process_ticket_request env d l).ticket_type = "error"
        ∧ (process_ticket_request env d l).ticket_data.type = "error"
        ∧ (process_ticket_request env d l).trace.strategies = [Strategy.vectorActive])
    ∧ (∀ (env : Env) (d : String) (l : LocVal) (e : String),
        _validate_query d = .ok () →
        env.cache (query_hash d l) = Option.none →
        env.hasActiveVectors = true → env.hasHistoricVectors = true →
        env.activeSearch d l = .ok [] → env.historicSearch d l = .ok [] →
        env.hybridSearch d l = .error e →
        (process_ticket_request env d l).ticket_type = "error"
        ∧ (process_ticket_request env d l).trace.strategies
            = [Strategy.vectorActive, Strategy.vectorHistoric, Strategy.hybridSearch])
    ∧ (∀ (env : Env) (d : String) (l : LocVal) (e : String),
        _validate_query d = .ok () →
        env.cache (query_hash d l) = Option.none →
        env.hasActiveVectors = true → env.hasHistoricVectors = true →
        env.activeSearch d l = .ok [] → env.historicSearch d l = .ok [] →
        env.hybridSearch d l = .ok [] → env.textSearch d l = .ok [] →
        env.globalSearch d = .error e →
        (process_ticket_request env d l).ticket_type = "invalid_query"
        ∧ (process_ticket_request env d l).trace.strategies
            = [Strategy.vectorActive, Strategy.vectorHistoric, Strategy.hybridSearch,
               Strategy.textOnly, Strategy.globalSearch]) := by
  refine ⟨?_, ?_, ?_⟩
  · intro env d l e hv hc hA hs
    refine ⟨?_, ?_, ?_⟩ <;>
      simp [process_ticket_request, activeStep, systemErrorResult, errorTicket, hv, hc, hA, hs]
  · intro env d l e hv hc hA hH hs0 hs1 hs
    constructor <;>
      simp [process_ticket_request, activeStep, historicStep, hybridStep, systemErrorResult,
        errorTicket, hv, hc, hA, hH, hs0, hs1, hs]
  · intro env d l e hv hc hA hH hs0 hs1 hs2 hs3 hs
    constructor <;>
      simp [process_ticket_request, activeStep, historicStep, hybridStep, textStep, globalStep,
        invalidQueryResult, hv, hc, hA, hH, hs0, hs1, hs2, hs3, hs]

/-- Witness for C2: the first clause applied to the raising vector
store environment. -/
theorem C2_degradation_witness :
    (_validate_query sampleDesc = Except.ok ()
      ∧ envVectorBoom.activeSearch sampleDesc sampleLoc = Except.error "connection refused")
    ∧ (process_ticket_request envVectorBoom sampleDesc sampleLoc).ticket_type = "error" :=
  ⟨⟨rfl, rfl⟩,
    (C2_degradation_amended.1 envVectorBoom sampleDesc sampleLoc "connection refused"
      rfl rfl rfl rfl).1⟩

/-- An environment whose active-vector search finds the sample match,
so the first call succeeds via the first search strategy. -/
def envCacheDemo : Env :=
  { envBase with activeSearch := fun _ _ => .ok [(sampleDoc, 1)] }

/-- C5 counterexample: across two identical calls (the first
succeeding and caching its result), the search strategies run exactly
once in total, but the LLM is invoked twice — the cache hit calls
`_generate_notification(ticket_data, "Cached Result")`, a fresh
`llm.invoke`, rather than returning a fixed notification — so the
claim that the search and LLM adapters are invoked exactly once total
is false. -/
theorem C5_cache_counterexample :
    (twoCalls envCacheDemo sampleDesc sampleLoc).1.trace.strategies.length
        + (twoCalls envCacheDemo sampleDesc sampleLoc).2.trace.strategies.length = 1
    ∧ (twoCalls envCacheDemo sampleDesc sampleLoc).1.trace.llmCalls
        + (twoCalls envCacheDemo sampleDesc sampleLoc).2.trace.llmCalls = 2
    ∧ ((twoCalls envCacheDemo sampleDesc sampleLoc).1.trace.llmCalls
        + (twoCalls envCacheDemo sampleDesc sampleLoc).2.trace.llmCalls ≠ 1) :=
  ⟨rfl, rfl, by decide⟩

/-- C5 amended: calling the orchestrator twice with the same
`(description, location_id)`, where the first call cached its result
under the key built from `description + ":" + location_id`, makes the
second call return the cached `(ticket_type, ticket_data)` without
running any search strategy or allocating IDs (the search adapters are
invoked exactly once total), but the notification is regenerated
through the LLM with matching method `"Cached Result"` on the hit, so
the LLM is invoked on both calls rather than exactly once total. -/
theorem C5_cache_second_call (env : Env) (d : String) (l : LocVal) (tt : String) (td : Ticket)
    (hv : _validate_query d = .ok ())
    (hw : (process_ticket_request env d l).trace.cacheWrites = [(query_hash d l, tt, td)]) :
    (twoCalls env d l).2.ticket_type = tt
    ∧ (twoCalls env d l).2.ticket_data = td
    ∧ (twoCalls env d l).2.notification
        = _generate_notification
            (applyWrites env (process_ticket_request env d l).trace.cacheWrites) td
            "Cached Result"
    ∧ (twoCalls env d l).2.trace.strategies = []
    ∧ (twoCalls env d l).2.trace.llmCalls = 1
    ∧ (twoCalls env d l).2.trace.idAllocs = 0
    ∧ (twoCalls env d l).2.trace.cacheWrites = [] := by
  simp only [twoCalls]
  rw [hw]
  refine ⟨?_, ?_, ?_, ?_, ?_, ?_, ?_⟩ <;>
    simp [process_ticket_request, applyWrites, lookupWrite, hv]

/-- Witness for C5: the second call on the concrete caching
environment returns the cached active-ticket result. -/
theorem C5_cache_witness :
    (_validate_query sampleDesc = Except.ok ()
      ∧ (process_ticket_request envCacheDemo sampleDesc sampleLoc).trace.cacheWrites
          = [(query_hash sampleDesc sampleLoc, "new_active_ticket",
              _create_ticket envCacheDemo 7 3 sampleLoc sampleDesc
                (_calculate_estimated_time [(sampleDoc, (1 : ℚ))] "active"))])
    ∧ (twoCalls envCacheDemo sampleDesc sampleLoc).2.ticket_type = "new_active_ticket" :=
  ⟨⟨rfl, rfl⟩,
    (C5_cache_second_call envCacheDemo sampleDesc sampleLoc "new_active_ticket"
      (_create_ticket envCacheDemo 7 3 sampleLoc sampleDesc
        (_calculate_estimated_time [(sampleDoc, (1 : ℚ))] "active"))
      rfl rfl).1⟩

/-- C9: on a cache hit the orchestrator only reads: it returns the
cached `(ticket_type, ticket_data)` and performs no state-changing
operation — no ID allocation, no search strategy, no cache write — so
applying the (empty) write set of the call leaves the environment exactly
as it was. -/
theorem C9_cache_hit_frame (env : Env) (d : String) (l : LocVal) (tt : String) (td : Ticket)
    (hv : _validate_query d = .ok ())
    (hc : env.cache (query_hash d l) = some (tt, td)) :
    (process_ticket_request env d l).ticket_type = tt
    ∧ (process_ticket_request env d l).ticket_data = td
    ∧ (process_ticket_request env d l).trace.idAllocs = 0
    ∧ (process_ticket_request env d l).trace.strategies = []
    ∧ (process_ticket_request env d l).trace.cacheWrites = []
    ∧ applyWrites env (process_ticket_request env d l).trace.cacheWrites = env := by
  have hr : process_ticket_request env d l
      = { ticket_type := tt
          ticket_data := td
          notification := _generate_notification env td "Cached Result"
          trace := { strategies := [], llmCalls := 1, idAllocs := 0, cacheGets := 1,
                     cacheWrites := [] } } := by
    simp [process_ticket_request, hv, hc]
  rw [hr]
  exact ⟨rfl, rfl, rfl, rfl, rfl, rfl⟩

/-- A concrete ticket cached from an earlier (modelled) call, used to
exercise the cache-hit path. -/
def cachedTicketFixture : Ticket :=
  { TicketID := 42
    customerID := 9
    locationID := sampleLoc
    type := "complaint"
    description := sampleDesc
    clusterID := 5
    estimated_resolution_time := 18
    is_valid := Option.none }

/-- An environment whose cache already holds a result for the sample
request. -/
def envHit : Env :=
  { envBase with
    cache := fun k =>
      if k = query_hash sampleDesc sampleLoc then some ("new_active_ticket", cachedTicketFixture)
      else Option.none }

/-- Witness for C9: the cache-hit theorem applied to the concrete
environment. -/
theorem C9_cache_hit_witness :
    (_validate_query sampleDesc = Except.ok ()
      ∧ envHit.cache (query_hash sampleDesc sampleLoc)
          = some ("new_active_ticket", cachedTicketFixture))
    ∧ (process_ticket_request envHit sampleDesc sampleLoc).trace.cacheWrites = [] :=
  ⟨⟨rfl, rfl⟩,
    (C9_cache_hit_frame envHit sampleDesc sampleLoc "new_active_ticket" cachedTicketFixture
      rfl rfl).2.2.2.2.1⟩

/-- C6: every pre-global strategy passes the `locationID` of the request as a
filter to its backend and only the global stage omits it; hence a
relevant document tagged with a different `locationID` appears in no
pre-global result (those are all empty here) but does appear in the
global result, and the request resolves as `new_global_search_ticket`
after trying all strategies. -/
theorem C6_global_fallback (activeC historicC indexC : List Doc)
    (relevant : String → Doc → Bool) (d : String) (l : LocVal) (nid : Int × Int)
    (notify : Ticket → String → Option String) (t : Doc)
    (hv : _validate_query d = .ok ())
    (ht : t ∈ indexC) (hrel : relevant d t = true)
    (hloc : ∀ x, x ∈ activeC ++ historicC ++ indexC → relevant d x = true →
      locMatches x l = false) :
    filteredQuery activeC relevant d l = []
    ∧ filteredQuery historicC relevant d l = []
    ∧ filteredQuery indexC relevant d l = []
    ∧ (t, (1 : ℚ)) ∈ globalQuery indexC relevant d
    ∧ (process_ticket_request (envOfCorpus activeC historicC indexC relevant nid notify)
        d l).ticket_type = "new_global_search_ticket"
    ∧ (process_ticket_request (envOfCorpus activeC historicC indexC relevant nid notify)
        d l).trace.strategies
        = [Strategy.vectorActive, Strategy.vectorHistoric, Strategy.hybridSearch,
           Strategy.textOnly, Strategy.globalSearch] := by
  have hemp : ∀ C : List Doc, (∀ x ∈ C, relevant d x = true → locMatches x l = false) →
      filteredQuery C relevant d l = [] := by
    intro C hC
    unfold filteredQuery
    rw [List.filter_eq_nil_iff.mpr, List.map_nil]
    intro a ha
    simp only [Bool.and_eq_true, not_and]
    intro hr
    simp [hC a ha hr]
  have hA : filteredQuery activeC relevant d l = [] := by
    refine hemp activeC fun x hx => hloc x ?_
    simp [List.mem_append, hx]
  have hH : filteredQuery historicC relevant d l = [] := by
    refine hemp historicC fun x hx => hloc x ?_
    simp [List.mem_append, hx]
  have hI : filteredQuery indexC relevant d l = [] := by
    refine hemp indexC fun x hx => hloc x ?_
    simp [List.mem_append, hx]
  have hmem : (t, (1 : ℚ)) ∈ globalQuery indexC relevant d := by
    unfold globalQuery
    exact List.mem_map.mpr ⟨t, List.mem_filter.mpr ⟨ht, hrel⟩, rfl⟩
  have hge : (globalQuery indexC relevant d).isEmpty = false := by
    cases hgq : globalQuery indexC relevant d with
    | nil => rw [hgq] at hmem; cases hmem
    | cons a u => rfl
  refine ⟨hA, hH, hI, hmem, ?_, ?_⟩ <;>
    simp [process_ticket_request, activeStep, historicStep, hybridStep, textStep, globalStep,
      finalizeStep, envOfCorpus, hv, hA, hH, hI, hge]

/-- The document the global-fallback witness finds: relevant but
tagged with `locationID` "22", not the requested "15". -/
def otherLocDoc : Doc :=
  { page_content := sampleDesc
    metadata :=
      { TicketID := some (PyVal.str "202")
        locationID := some (PyVal.str "22")
        estimated_resolution_time := some (PyVal.str "12")
        actual_resolution_time := Option.none } }

/-- Witness for C6: a corpus holding only a document at another
location; the request at location "15" is answered by the global
stage. -/
theorem C6_global_fallback_witness :
    (_validate_query sampleDesc = Except.ok ()
      ∧ otherLocDoc ∈ [otherLocDoc]
      ∧ (∀ x, x ∈ ([] : List Doc) ++ [] ++ [otherLocDoc] → true = true →
          locMatches x sampleLoc = false))
    ∧ (process_ticket_request
        (envOfCorpus [] [] [otherLocDoc] (fun _ _ => true) (7, 3) (fun _ _ => Option.none))
        sampleDesc sampleLoc).ticket_type = "new_global_search_ticket" :=
  ⟨⟨rfl, List.mem_singleton.mpr rfl, by decide⟩,
    (C6_global_fallback [] [] [otherLocDoc] (fun _ _ => true) sampleDesc sampleLoc (7, 3)
      (fun _ _ => Option.none) otherLocDoc rfl (List.mem_singleton.mpr rfl) rfl
      (by decide)).2.2.2.2.1⟩

/-- A rational at least 1 truncates (toward zero) to an integer at
least 1. -/
lemma one_le_intTrunc (q : ℚ) (h : 1 ≤ q) : 1 ≤ intTrunc q := by
  have hd : (0 : ℚ) < (q.den : ℚ) := by exact_mod_cast q.den_pos
  have h2 : (1 : ℚ) ≤ (q.num : ℚ) / (q.den : ℚ) := by rw [Rat.num_div_den]; exact h
  have h3 : (q.den : Int) ≤ q.num := by exact_mod_cast (one_le_div hd).mp h2
  have hbp : (0 : Int) < (q.den : Int) := by exact_mod_cast q.den_pos
  unfold intTrunc
  rw [Int.tdiv_eq_ediv (le_trans hbp.le h3) hbp.le, Int.le_ediv_iff_mul_le hbp]
  simpa using h3

/-- A list of rationals that are all at least 1 sums to at least its
length. -/
lemma length_le_sum (l : List ℚ) (h : ∀ x ∈ l, 1 ≤ x) : (l.length : ℚ) ≤ l.sum := by
  induction l with
  | nil => simp
  | cons a t ih =>
    have ha := h a (List.mem_cons_self a t)
    have ht := ih (fun x hx => h x (List.mem_cons_of_mem a hx))
    simp only [List.length_cons, List.sum_cons]
    push_cast
    linarith

/-- The mean of a nonempty list of rationals that are all at least 1
is at least 1. -/
lemma one_le_ratMean (l : List ℚ) (hne : l ≠ []) (h : ∀ x ∈ l, 1 ≤ x) : 1 ≤ ratMean l := by
  have hlp : (0 : ℚ) < (l.length : ℚ) := by
    have : 0 < l.length := List.length_pos.mpr hne
    exact_mod_cast this
  exact (one_le_div hlp).mpr (length_le_sum l h)

/-- The resolution-time value of a match is well behaved for the
positivity bound: whenever it parses, it parses to at least 1 (an
unparseable value contributes the default 24 instead). -/
def timeOK (f : String) (m : Match) : Prop :=
  ∀ q : ℚ, pyFloat? (timeField f m.1) = some q → 1 ≤ q

/-- C7 counterexample: the validation-error ticket produced for the
5-character description "short" carries
`estimated_resolution_time = 0`, which is not a positive integer, so
the claim is false for the failure-path tickets the orchestrator also
produces. -/
theorem C7_positive_estimate_counterexample :
    (process_ticket_request envBase "short" sampleLoc).ticket_data.estimated_resolution_time = 0
    ∧ ¬(0 < (process_ticket_request envBase "short"
          sampleLoc).ticket_data.estimated_resolution_time) :=
  ⟨rfl, by decide⟩

/-- C7 amended: a ticket produced through a match-producing strategy
carries the result of the estimator, which is a positive integer whenever
every parseable resolution time among the matches is at least 1
(unparseable values count as the default 24), and which is the default
24 when no match is available to the estimator; the failure-path
tickets (`validation_error`, and likewise `invalid_query` and `error`)
instead carry the sentinel 0. -/
theorem C7_positive_estimate_amended :
    (∀ (ms : List Match) (f : String), ms ≠ [] → (∀ m ∈ ms, timeOK f m) →
        1 ≤ _calculate_estimated_time ms f)
    ∧ (∀ f : String, _calculate_estimated_time ([] : List Match) f = 24)
    ∧ (∀ (env : Env) (d : String) (l : LocVal) (ms : List Match),
        _validate_query d = .ok () → env.cache (query_hash d l) = Option.none →
        env.hasActiveVectors = true → env.activeSearch d l = .ok ms → ms ≠ [] →
        (process_ticket_request env d l).ticket_data.estimated_resolution_time
          = _calculate_estimated_time ms "active")
    ∧ (∀ (env : Env) (d : String) (l : LocVal),
        pyStrip d = "" ∨ (pyStrip d).length < 20 →
        (process_ticket_request env d l).ticket_data.estimated_resolution_time = 0) := by
  refine ⟨?_, ?_, ?_, ?_⟩
  · intro ms f hne hok
    have hms : ms.isEmpty = false := by
      cases ms with | nil => exact absurd rfl hne | cons a t => rfl
    have htne : ms.map (fun m => (pyFloat? (timeField f m.1)).getD 24) ≠ [] := by
      simpa using hne
    have htms : (ms.map (fun m => (pyFloat? (timeField f m.1)).getD 24)).isEmpty = false := by
      cases hmm : ms.map (fun m => (pyFloat? (timeField f m.1)).getD 24) with
      | nil => exact absurd hmm htne
      | cons a t => rfl
    have hall : ∀ x ∈ ms.map (fun m => (pyFloat? (timeField f m.1)).getD 24), 1 ≤ x := by
      intro x hx
      obtain ⟨m, hm, rfl⟩ := List.mem_map.mp hx
      cases hpf : pyFloat? (timeField f m.1) with
      | none => simp [hpf]
      | some q => simpa [hpf] using hok m hm q hpf
    simp only [_calculate_estimated_time, hms, Bool.false_eq_true, if_false, htms]
    exact one_le_intTrunc _ (one_le_ratMean _ htne hall)
  · intro f
    simp [_calculate_estimated_time]
  · intro env d l ms hv hc hA hs hne
    have hms : ms.isEmpty = false := by
      cases ms with | nil => exact absurd rfl hne | cons a t => rfl
    simp [process_ticket_request, activeStep, finalizeStep, _create_ticket,
      hv, hc, hA, hs, hms]
  · intro env d l h
    obtain ⟨ve, hve⟩ : ∃ ve, _validate_query d = .error ve := by
      unfold _validate_query
      rcases h with h | h
      · by_cases hq : d = "" <;> simp [hq, h]
      · by_cases hq : d = "" <;> by_cases hs : pyStrip d = "" <;> simp [hq, hs, h]
    simp [process_ticket_request, hve, validationErrorTicket]

/-- Witness for C7: the positivity clause applied to the single
sample match whose estimated time parses to 18. -/
theorem C7_positive_estimate_witness :
    ([(sampleDoc, (1 : ℚ))] ≠ ([] : List Match)
      ∧ (∀ m ∈ [(sampleDoc, (1 : ℚ))], timeOK "active" m))
    ∧ 1 ≤ _calculate_estimated_time [(sampleDoc, (1 : ℚ))] "active" := by
  have hok : ∀ m ∈ [(sampleDoc, (1 : ℚ))], timeOK "active" m := by
    intro m hm q hq
    have hm1 : m = (sampleDoc, (1 : ℚ)) := by simpa using hm
    subst hm1
    have h18 : pyFloat? (timeField "active" sampleDoc) = some 18 := by decide
    rw [h18] at hq
    rw [← Option.some.inj hq]
    norm_num
  exact ⟨⟨by decide, hok⟩,
    C7_positive_estimate_amended.1 [(sampleDoc, (1 : ℚ))] "active" (by decide) hok⟩

/-- The seed of a left fold by `max` is a lower bound of the fold. -/
lemma foldl_max_init (xs : List Int) : ∀ a : Int, a ≤ xs.foldl max a := by
  induction xs with
  | nil => intro a; simp
  | cons b t ih => intro a; exact le_trans (le_max_left a b) (ih (max a b))

/-- Every member of a list is bounded by a left fold by `max` over
it. -/
lemma foldl_max_mem (xs : List Int) : ∀ a n : Int, n ∈ xs → n ≤ xs.foldl max a := by
  induction xs with
  | nil => intro a n h; cases h
  | cons b t ih =>
    intro a n h
    rcases List.mem_cons.mp h with h | h
    · subst h
      exact le_trans (le_max_right a n) (foldl_max_init t (max a n))
    · exact ih (max a b) n h

/-- Every member of a list is bounded by `max(l) if l else 0`. -/
lemma le_listMax0_of_mem (l : List Int) (n : Int) (h : n ∈ l) : n ≤ listMax0 l := by
  cases l with
  | nil => cases h
  | cons x xs =>
    rcases List.mem_cons.mp h with h | h
    · subst h
      exact foldl_max_init xs n
    · exact foldl_max_mem xs x n h

/-- C8 counterexample: on an empty (but readable) index the allocator
returns `(0+1, 0+1) = (1, 1)` — the `else` branch of the scan sets
both maxima to 0 — not the randomly generated large integers the claim
reserves for that case (random IDs are produced only when the scan
raises). -/
theorem C8_next_ids_counterexample :
    _get_next_ids (Except.ok []) 54321 6789 = (1, 1)
    ∧ _get_next_ids (Except.ok []) 54321 6789 ≠ (54321, 6789) :=
  ⟨rfl, by decide⟩

/-- C8 amended: the allocator computes the two counters independently
from the index scan — on a successful nonempty scan each returned
counter strictly exceeds every existing identifier parseable from the
documents under the tolerated field aliases (it is the maximum plus
one); on a successful scan of an empty index it returns `(1, 1)`
(that is, max 0 plus one, not random values); only when the scan
itself raises does it fall back to the randomly generated pair. -/
theorem C8_next_ids_amended :
    (∀ (docs : List IndexDoc) (r1 r2 : Int) (dd : IndexDoc) (n : Int),
        dd ∈ docs → ticketIdOf dd = some n →
        n < (_get_next_ids (Except.ok docs) r1 r2).1)
    ∧ (∀ (docs : List IndexDoc) (r1 r2 : Int) (dd : IndexDoc) (n : Int),
        dd ∈ docs → customerIdOf dd = some n →
        n < (_get_next_ids (Except.ok docs) r1 r2).2)
    ∧ (∀ (docs : List IndexDoc) (r1 r2 : Int), docs ≠ [] →
        _get_next_ids (Except.ok docs) r1 r2
          = (listMax0 (docs.filterMap ticketIdOf) + 1,
             listMax0 (docs.filterMap customerIdOf) + 1))
    ∧ (∀ r1 r2 : Int, _get_next_ids (Except.ok []) r1 r2 = (1, 1))
    ∧ (∀ (e : String) (r1 r2 : Int), _get_next_ids (Except.error e) r1 r2 = (r1, r2)) := by
  have hne : ∀ (docs : List IndexDoc), docs ≠ [] → docs.isEmpty = false := by
    intro docs h
    cases docs with | nil => exact absurd rfl h | cons a t => rfl
  refine ⟨?_, ?_, ?_, ?_, ?_⟩
  · intro docs r1 r2 dd n hdd hid
    have hm : n ∈ docs.filterMap ticketIdOf := List.mem_filterMap.mpr ⟨dd, hdd, hid⟩
    have hb := le_listMax0_of_mem _ n hm
    have hd : docs ≠ [] := by intro h; subst h; cases hdd
    simp only [_get_next_ids, hne docs hd, Bool.false_eq_true, if_false]
    exact Int.lt_add_one_iff.mpr hb
  · intro docs r1 r2 dd n hdd hid
    have hm : n ∈ docs.filterMap customerIdOf := List.mem_filterMap.mpr ⟨dd, hdd, hid⟩
    have hb := le_listMax0_of_mem _ n hm
    have hd : docs ≠ [] := by intro h; subst h; cases hdd
    simp only [_get_next_ids, hne docs hd, Bool.false_eq_true, if_false]
    exact Int.lt_add_one_iff.mpr hb
  · intro docs r1 r2 hd
    simp only [_get_next_ids, hne docs hd, Bool.false_eq_true, if_false]
  · intro r1 r2
    rfl
  · intro e r1 r2
    rfl

/-- An index document carrying ticket identifier "7" (under the
primary alias) and customer identifier "3". -/
def idxDoc7 : IndexDoc :=
  { TicketID := some (PyVal.str "7")
    id := Option.none
    ticket_id := Option.none
    customerID := some (PyVal.str "3")
    customer_id := Option.none
    customer := Option.none }

/-- Witness for C8: on an index holding one document with ticket ID 7,
the allocated ticket counter exceeds 7. -/
theorem C8_next_ids_witness :
    (idxDoc7 ∈ [idxDoc7] ∧ ticketIdOf idxDoc7 = some 7)
    ∧ 7 < (_get_next_ids (Except.ok [idxDoc7]) 54321 6789).1 :=
  ⟨⟨List.mem_singleton.mpr rfl, by decide⟩,
    C8_next_ids_amended.1 [idxDoc7] 54321 6789 idxDoc7 7 (List.mem_singleton.mpr rfl)
      (by decide)⟩

/-- C10: `VectorStoreManager.add_single_document` raises `ValueError`
— and, since every store write happens only after validation in the
success branch, writes nothing — whenever one of the required fields
`description`, `TicketID`, `locationID`,
`estimated_resolution_time` is missing from the ticket data or the
description is shorter than 5 characters after stripping whitespace. -/
theorem C10_add_single_document_validation (isActive : Bool)
    (embed : String → Option (List ℚ)) (store : List WeaviateProps)
    (ticket_data : TicketData)
    (h : ticket_data.description = Option.none
      ∨ ticket_data.TicketID = Option.none
      ∨ ticket_data.locationID = Option.none
      ∨ ticket_data.estimated_resolution_time = Option.none
      ∨ (∀ dsc, ticket_data.description = some dsc → (pyStrip dsc).length < 5)) :
    (∃ msg, add_single_document isActive embed store ticket_data
        = Except.error (AddErr.valueError msg))
    ∧ (∀ newStore, add_single_document isActive embed store ticket_data
        ≠ Except.ok newStore) := by
  have hmain : ∃ msg, add_single_document isActive embed store ticket_data
      = Except.error (AddErr.valueError msg) := by
    by_cases h1 : ticket_data.description = Option.none
    · exact ⟨"Missing required field: description", by simp [add_single_document, h1]⟩
    by_cases h2 : ticket_data.TicketID = Option.none
    · exact ⟨"Missing required field: TicketID", by simp [add_single_document, h1, h2]⟩
    by_cases h3 : ticket_data.locationID = Option.none
    · exact ⟨"Missing required field: locationID", by simp [add_single_document, h1, h2, h3]⟩
    by_cases h4 : ticket_data.estimated_resolution_time = Option.none
    · exact ⟨"Missing required field: estimated_resolution_time",
        by simp [add_single_document, h1, h2, h3, h4]⟩
    obtain ⟨dsc, hdsc⟩ := Option.ne_none_iff_exists.mp h1
    have hshort : (pyStrip dsc).length < 5 := by
      rcases h with h | h | h | h | h
      · exact absurd h h1
      · exact absurd h h2
      · exact absurd h h3
      · exact absurd h h4
      · exact h dsc hdsc.symm
    refine ⟨"Description must be at least 5 characters long", ?_⟩
    simp only [add_single_document, ← hdsc, Option.isNone_some, Bool.false_eq_true, if_false,
      Option.isNone_none]
    have h2f : ticket_data.TicketID.isNone = false := by
      cases hx : ticket_data.TicketID with
      | none => exact absurd hx h2
      | some v => rfl
    have h3f : ticket_data.locationID.isNone = false := by
      cases hx : ticket_data.locationID with
      | none => exact absurd hx h3
      | some v => rfl
    have h4f : ticket_data.estimated_resolution_time.isNone = false := by
      cases hx : ticket_data.estimated_resolution_time with
      | none => exact absurd hx h4
      | some v => rfl
    simp [h2f, h3f, h4f, hshort]
  refine ⟨hmain, ?_⟩
  obtain ⟨msg, hmsg⟩ := hmain
  intro newStore hok
  rw [hmsg] at hok
  cases hok

/-- A ticket-data dictionary missing the required `TicketID` key. -/
def tdMissingTicketID : TicketData :=
  { description := some "Printer is broken badly"
    TicketID := Option.none
    locationID := some "15"
    estimated_resolution_time := some "24" }

/-- Witness for C10: the missing-`TicketID` dictionary is rejected
with a `ValueError` and nothing is written. -/
theorem C10_add_single_document_witness :
    (tdMissingTicketID.TicketID = Option.none)
    ∧ ∃ msg, add_single_document true (fun _ => some [1]) [] tdMissingTicketID
        = Except.error (AddErr.valueError msg) :=
  ⟨rfl,
    (C10_add_single_document_validation true (fun _ => some [1]) [] tdMissingTicketID
      (Or.inr (Or.inl rfl))).1⟩
